import Mathlib

/-!
Shallow embedding of the auth self-diagnostic layer of `src/lib/authFixes.ts`.

Each remote provider call is modelled by an `Outcome`: either the promise
resolves (`ok` with the resolved record) or it rejects (`thrown`).  An `Env`
fixes the behaviour of every provider call for one run; the checks, fixes and
aggregate operations are pure functions of the `Env`.  Each check/fix also
returns the list of provider calls it performed, so that claims about calls
being attempted or skipped are expressible.
-/

set_option linter.unusedVariables false

namespace AuthFixes

/-- An error object as resolved by the provider SDK (`error.message`). -/
structure ErrorInfo where
  message : String
deriving DecidableEq, Repr

/-- A session record; `expires_at` is an optional Unix-seconds timestamp. -/
structure Session where
  expires_at : Option Int
deriving DecidableEq, Repr

/-- The authenticated user record used by the missing-profile problem. -/
structure User where
  id : String
  email : Option String
  metadataName : Option String
deriving DecidableEq, Repr

/-- A row of the `user_profiles` table. -/
structure ProfileRow where
  id : String
  email : String
  name : String
  role : String
deriving DecidableEq, Repr

/-- An awaited provider call either resolves to a value or rejects. -/
inductive Outcome (α : Type) where
  | ok (value : α)
  | thrown
deriving DecidableEq, Repr

/-- Resolved shape of `getSession()` / `refreshSession()`: `{ data: { session }, error }`. -/
structure SessionRes where
  error : Option ErrorInfo
  session : Option Session
deriving DecidableEq, Repr

/-- Resolved shape of `getUser()`: `{ data: { user }, error }`. -/
structure UserRes where
  error : Option ErrorInfo
  user : Option User
deriving DecidableEq, Repr

/-- Resolved shape of the profile `select ... single()` call: `{ data, error }`. -/
structure SelectRes where
  error : Option ErrorInfo
  row : Option ProfileRow
deriving DecidableEq, Repr

/-- One run's behaviour of every provider call and of the ambient state the
code reads (`window.location.origin`, latency of the session fetch, current
Unix time in seconds). -/
structure Env where
  getSession : Outcome SessionRes
  getUser : Outcome UserRes
  refreshSession : Outcome SessionRes
  signOut : Outcome Unit
  profileSelect : String → Outcome SelectRes
  profileInsert : ProfileRow → Outcome (Option ErrorInfo)
  sessionLatencyMs : Nat
  origin : String
  nowSec : Int

/-- `startsWithChars sub l` : `sub` occurs at the head of `l`. -/
def startsWithChars : List Char → List Char → Bool
  | [], _ => true
  | _ :: _, [] => false
  | a :: as, b :: bs => a == b && startsWithChars as bs

/-- `hasSubChars sub l` : `sub` occurs contiguously somewhere in `l`. -/
def hasSubChars (sub : List Char) : List Char → Bool
  | [] => sub.isEmpty
  | c :: tl => startsWithChars sub (c :: tl) || hasSubChars sub tl

/-- JavaScript `s.includes(sub)` : substring containment. -/
def strIncludes (s sub : String) : Bool :=
  hasSubChars sub.toList s.toList

/-- Result shape of a `check()`. -/
structure CheckResult where
  hasProblem : Bool
  details : Option String := none
deriving DecidableEq, Repr

/-- Result shape of a `fix()`. -/
structure FixResult where
  success : Bool
  message : String
  details : Option String := none
deriving DecidableEq, Repr

/-- Problem severity. -/
inductive Severity where
  | low
  | medium
  | high
  | critical
deriving DecidableEq, Repr

/-- The provider calls a check or fix may perform, for the call traces. -/
inductive ProviderCall where
  | getSessionCall
  | getUserCall
  | refreshSessionCall
  | signOutCall
  | profileSelectCall (id : String)
  | profileInsertCall (row : ProfileRow)
deriving DecidableEq, Repr

/-- The `AuthProblem` interface: a check and a fix, each returning its result
together with the trace of provider calls it performed. -/
structure AuthProblem where
  id : String
  name : String
  description : String
  severity : Severity
  fix : Env → FixResult × List ProviderCall
  check : Env → CheckResult × List ProviderCall

/-- `sessionExpiredProblem.check`. -/
def sessionExpiredCheck (env : Env) : CheckResult × List ProviderCall :=
  match env.getSession with
  | .thrown => (⟨true, some "Erro ao verificar sessão"⟩, [.getSessionCall])
  | .ok r =>
    match r.error with
    | some e => (⟨true, some e.message⟩, [.getSessionCall])
    | none =>
      match r.session with
      | none => (⟨true, some "Nenhuma sessão ativa encontrada"⟩, [.getSessionCall])
      | some _ => (⟨false, none⟩, [.getSessionCall])

/-- `sessionExpiredProblem.fix`. -/
def sessionExpiredFix (env : Env) : FixResult × List ProviderCall :=
  match env.refreshSession with
  | .thrown => (⟨false, "Erro ao renovar sessão", some "Erro desconhecido"⟩, [.refreshSessionCall])
  | .ok r =>
    match r.error with
    | some e => (⟨false, "Falha ao renovar sessão", some e.message⟩, [.refreshSessionCall])
    | none =>
      match r.session with
      | some _ => (⟨true, "Sessão renovada com sucesso", none⟩, [.refreshSessionCall])
      | none =>
        (⟨false, "Sessão não pôde ser renovada - faça login novamente", none⟩,
          [.refreshSessionCall])

/-- `invalidTokenProblem.check`. -/
def invalidTokenCheck (env : Env) : CheckResult × List ProviderCall :=
  match env.getUser with
  | .thrown => (⟨true, some "Erro ao verificar token"⟩, [.getUserCall])
  | .ok r =>
    match r.error with
    | some e =>
      if strIncludes e.message "JWT" then (⟨true, some "Token JWT inválido"⟩, [.getUserCall])
      else (⟨false, none⟩, [.getUserCall])
    | none => (⟨false, none⟩, [.getUserCall])

/-- `invalidTokenProblem.fix`. -/
def invalidTokenFix (env : Env) : FixResult × List ProviderCall :=
  match env.signOut with
  | .thrown => (⟨false, "Erro ao limpar tokens", some "Erro desconhecido"⟩, [.signOutCall])
  | .ok _ => (⟨true, "Tokens limpos - faça login novamente", none⟩, [.signOutCall])

/-- `connectivityProblem.check`. -/
def connectivityCheck (env : Env) : CheckResult × List ProviderCall :=
  match env.getSession with
  | .thrown => (⟨true, some "Falha na conexão com Supabase"⟩, [.getSessionCall])
  | .ok r =>
    match r.error with
    | some e => (⟨true, some ("Erro de conexão: " ++ e.message)⟩, [.getSessionCall])
    | none =>
      if env.sessionLatencyMs > 5000 then
        (⟨true, some ("Resposta lenta: " ++ toString env.sessionLatencyMs ++ "ms")⟩,
          [.getSessionCall])
      else (⟨false, none⟩, [.getSessionCall])

/-- `connectivityProblem.fix`. -/
def connectivityFix (env : Env) : FixResult × List ProviderCall :=
  match env.getSession with
  | .thrown => (⟨false, "Erro na reconexão", some "Verifique sua internet"⟩, [.getSessionCall])
  | .ok r =>
    match r.error with
    | some e => (⟨false, "Falha na reconexão", some e.message⟩, [.getSessionCall])
    | none => (⟨true, "Conexão restaurada", none⟩, [.getSessionCall])

/-- The profile row inserted by the missing-profile fix; `||` is JavaScript's
or, so an empty-string metadata name also falls back to the default. -/
def mkProfileRow (u : User) : ProfileRow :=
  { id := u.id
    email := u.email.getD ""
    name :=
      match u.metadataName with
      | some s => if s = "" then "Usuário" else s
      | none => "Usuário"
    role := "user" }

/-- `missingProfileProblem.check`. -/
def missingProfileCheck (env : Env) : CheckResult × List ProviderCall :=
  match env.getUser with
  | .thrown => (⟨true, some "Erro ao verificar perfil"⟩, [.getUserCall])
  | .ok r =>
    match r.user with
    | none => (⟨true, some "Usuário não autenticado"⟩, [.getUserCall])
    | some u =>
      match env.profileSelect u.id with
      | .thrown => (⟨true, some "Erro ao verificar perfil"⟩, [.getUserCall, .profileSelectCall u.id])
      | .ok s =>
        match s.error, s.row with
        | some _, _ =>
          (⟨true, some "Perfil não encontrado no banco"⟩, [.getUserCall, .profileSelectCall u.id])
        | none, none =>
          (⟨true, some "Perfil não encontrado no banco"⟩, [.getUserCall, .profileSelectCall u.id])
        | none, some _ => (⟨false, none⟩, [.getUserCall, .profileSelectCall u.id])

/-- `missingProfileProblem.fix`. -/
def missingProfileFix (env : Env) : FixResult × List ProviderCall :=
  match env.getUser with
  | .thrown => (⟨false, "Erro ao criar perfil", some "Erro desconhecido"⟩, [.getUserCall])
  | .ok r =>
    match r.user with
    | none => (⟨false, "Usuário não autenticado", none⟩, [.getUserCall])
    | some u =>
      match env.profileInsert (mkProfileRow u) with
      | .thrown =>
        (⟨false, "Erro ao criar perfil", some "Erro desconhecido"⟩,
          [.getUserCall, .profileInsertCall (mkProfileRow u)])
      | .ok (some e) =>
        (⟨false, "Erro ao criar perfil", some e.message⟩,
          [.getUserCall, .profileInsertCall (mkProfileRow u)])
      | .ok none =>
        (⟨true, "Perfil criado com sucesso", none⟩,
          [.getUserCall, .profileInsertCall (mkProfileRow u)])

/-- `currentOrigin.includes('localhost') || currentOrigin.includes('127.0.0.1')`. -/
def isLocalhostOrigin (origin : String) : Bool :=
  strIncludes origin "localhost" || strIncludes origin "127.0.0.1"

/-- `corsProblem.check`. -/
def corsCheck (env : Env) : CheckResult × List ProviderCall :=
  if isLocalhostOrigin env.origin then (⟨false, none⟩, [])
  else
    match env.getSession with
    | .thrown => (⟨true, some "Erro ao verificar CORS"⟩, [.getSessionCall])
    | .ok r =>
      match r.error with
      | some e =>
        if strIncludes e.message "CORS" then (⟨true, some "Erro de CORS detectado"⟩, [.getSessionCall])
        else (⟨false, none⟩, [.getSessionCall])
      | none => (⟨false, none⟩, [.getSessionCall])

/-- `corsProblem.fix`. -/
def corsFix (env : Env) : FixResult × List ProviderCall :=
  ((⟨false, "CORS deve ser configurado no servidor",
      some "Adicione sua origem às configurações de CORS do Supabase"⟩ : FixResult), [])

/-- Problem 1: expired or invalid session. -/
def sessionExpiredProblem : AuthProblem :=
  { id := "session_expired"
    name := "Sessão Expirada"
    description := "A sessão do usuário expirou ou se tornou inválida"
    severity := .medium
    fix := sessionExpiredFix
    check := sessionExpiredCheck }

/-- Problem 2: invalid access token. -/
def invalidTokenProblem : AuthProblem :=
  { id := "invalid_token"
    name := "Token de Acesso Inválido"
    description := "O token de acesso está inválido ou corrompido"
    severity := .high
    fix := invalidTokenFix
    check := invalidTokenCheck }

/-- Problem 3: connectivity. -/
def connectivityProblem : AuthProblem :=
  { id := "connectivity"
    name := "Problemas de Conectividade"
    description := "Problemas de conexão com o Supabase"
    severity := .high
    fix := connectivityFix
    check := connectivityCheck }

/-- Problem 4: missing user profile. -/
def missingProfileProblem : AuthProblem :=
  { id := "missing_profile"
    name := "Perfil de Usuário Não Encontrado"
    description := "O perfil do usuário não existe no banco de dados"
    severity := .medium
    fix := missingProfileFix
    check := missingProfileCheck }

/-- Problem 5: CORS misconfiguration. -/
def corsProblem : AuthProblem :=
  { id := "cors"
    name := "Problema de CORS"
    description := "Configuração incorreta de CORS"
    severity := .medium
    fix := corsFix
    check := corsCheck }

/-- The registry, in source order. -/
def authProblems : List AuthProblem :=
  [sessionExpiredProblem, invalidTokenProblem, connectivityProblem,
   missingProfileProblem, corsProblem]

/-- One entry of the diagnostic result. -/
structure ProblemStatus where
  problem : AuthProblem
  hasProblem : Bool
  details : Option String

/-- Severity summary of a diagnostic pass. -/
structure DiagnoseSummary where
  total : Nat
  critical : Nat
  high : Nat
  medium : Nat
  low : Nat
deriving DecidableEq, Repr

/-- Result of `diagnoseAuthProblems`. -/
structure DiagnoseResult where
  problems : List ProblemStatus
  summary : DiagnoseSummary

/-- `diagnoseAuthProblems()`: run every registered check (Promise.all keeps
registry order) and aggregate the severity summary. -/
def diagnoseAuthProblems (env : Env) : DiagnoseResult :=
  let results := authProblems.map (fun p =>
    let c := (p.check env).fst
    { problem := p, hasProblem := c.hasProblem, details := c.details : ProblemStatus })
  { problems := results
    summary :=
      { total := (results.filter (fun r => r.hasProblem)).length
        critical :=
          (results.filter (fun r => r.hasProblem && r.problem.severity == Severity.critical)).length
        high :=
          (results.filter (fun r => r.hasProblem && r.problem.severity == Severity.high)).length
        medium :=
          (results.filter (fun r => r.hasProblem && r.problem.severity == Severity.medium)).length
        low :=
          (results.filter (fun r => r.hasProblem && r.problem.severity == Severity.low)).length } }

/-- One entry of the applied-fixes result. -/
structure AppliedFix where
  problem : AuthProblem
  success : Bool
  message : String
  details : Option String

/-- Summary of an applied-fixes pass. -/
structure FixSummary where
  total : Nat
  successful : Nat
  failed : Nat
deriving DecidableEq, Repr

/-- Result of `applyAuthFixes`. -/
structure ApplyResult where
  applied : List AppliedFix
  summary : FixSummary

/-- `applyAuthFixes()`: re-diagnose, keep the entries with `hasProblem`,
run their fixes in that order and summarise. -/
def applyAuthFixes (env : Env) : ApplyResult :=
  let problems := (diagnoseAuthProblems env).problems
  let problemsToFix := problems.filter (fun p => p.hasProblem)
  let results := problemsToFix.map (fun r =>
    let f := (r.problem.fix env).fst
    { problem := r.problem, success := f.success, message := f.message,
      details := f.details : AppliedFix })
  { applied := results
    summary :=
      { total := results.length
        successful := (results.filter (fun r => r.success)).length
        failed := (results.filter (fun r => !r.success)).length } }

/-- Browser storage: an ordered association of keys to values. -/
abbrev Storage := List (String × String)

/-- `key.includes('supabase') || key.includes('auth')`. -/
def authKeyMatches (k : String) : Bool :=
  strIncludes k "supabase" || strIncludes k "auth"

/-- The collection loop of `clearAuthData`: every key that is truthy (non
empty) and matches; JavaScript `key && (...)`. -/
def keysToRemove (st : Storage) : List String :=
  (st.filter fun kv => (kv.fst != "") && authKeyMatches kv.fst).map fun kv => kv.fst

/-- `storage.removeItem(k)`. -/
def removeItem (st : Storage) (k : String) : Storage :=
  st.filter fun kv => kv.fst != k

/-- Result of `clearAuthData`. -/
structure ClearResult where
  success : Bool
  message : String
deriving DecidableEq, Repr

/-- `clearAuthData` outcome: result, both storages after the wipe, and the
provider calls performed. -/
structure ClearOutcome where
  result : ClearResult
  localAfter : Storage
  sessionAfter : Storage
  calls : List ProviderCall

/-- `clearAuthData()`: wipe matching keys from both storages, then sign out;
a rejection of `signOut` is caught and reported as failure. -/
def clearAuthData (env : Env) (locSt sesSt : Storage) : ClearOutcome :=
  let loc2 := (keysToRemove locSt).foldl removeItem locSt
  let ses2 := (keysToRemove sesSt).foldl removeItem sesSt
  match env.signOut with
  | .ok _ =>
    { result := ⟨true, "Dados de autenticação limpos com sucesso"⟩
      localAfter := loc2, sessionAfter := ses2, calls := [.signOutCall] }
  | .thrown =>
    { result := ⟨false, "Erro ao limpar dados de autenticação"⟩
      localAfter := loc2, sessionAfter := ses2, calls := [.signOutCall] }

/-- `needsReauthentication()`; JavaScript `if (expiresAt)` skips a zero
timestamp as well as an absent one. -/
def needsReauthentication (env : Env) : Bool :=
  match env.getSession with
  | .thrown => true
  | .ok r =>
    match r.error with
    | some _ => true
    | none =>
      match r.session with
      | none => true
      | some s =>
        match s.expires_at with
        | some expiresAt =>
          if expiresAt ≠ 0 then
            (if expiresAt - env.nowSec < 300 then true else false)
          else false
        | none => false

/-- For each registered problem id, whether the provider calls this run makes
its `check` perform include one that throws (so the check's catch runs). -/
def checkRaises (pid : String) (env : Env) : Bool :=
  if pid = "session_expired" then env.getSession == Outcome.thrown
  else if pid = "invalid_token" then env.getUser == Outcome.thrown
  else if pid = "connectivity" then env.getSession == Outcome.thrown
  else if pid = "missing_profile" then
    match env.getUser with
    | .thrown => true
    | .ok r =>
      match r.user with
      | some u => env.profileSelect u.id == Outcome.thrown
      | none => false
  else if pid = "cors" then
    (!isLocalhostOrigin env.origin) && (env.getSession == Outcome.thrown)
  else false

/-- For each registered problem id, whether the provider calls this run makes
its `fix` perform include one that throws (so the fix's catch runs). -/
def fixRaises (pid : String) (env : Env) : Bool :=
  if pid = "session_expired" then env.refreshSession == Outcome.thrown
  else if pid = "invalid_token" then env.signOut == Outcome.thrown
  else if pid = "connectivity" then env.getSession == Outcome.thrown
  else if pid = "missing_profile" then
    match env.getUser with
    | .thrown => true
    | .ok r =>
      match r.user with
      | some u => env.profileInsert (mkProfileRow u) == Outcome.thrown
      | none => false
  else false

/-! Concrete provider behaviours used to instantiate the theorems. -/

/-- A healthy baseline behaviour: valid session far from expiry, authenticated
user, existing profile, fast responses, localhost origin. -/
def envBase : Env :=
  { getSession := .ok ⟨none, some ⟨some 100000⟩⟩
    getUser := .ok ⟨none, some ⟨"u1", some "u1@example.com", some "Alice"⟩⟩
    refreshSession := .ok ⟨none, some ⟨some 100000⟩⟩
    signOut := .ok ()
    profileSelect := fun _ => .ok ⟨none, some ⟨"u1", "u1@example.com", "Alice", "user"⟩⟩
    profileInsert := fun _ => .ok none
    sessionLatencyMs := 50
    origin := "http://localhost:5173"
    nowSec := 1000 }

/-- Every provider call rejects, and the origin is a production one. -/
def envThrownAll : Env :=
  { getSession := .thrown
    getUser := .thrown
    refreshSession := .thrown
    signOut := .thrown
    profileSelect := fun _ => .thrown
    profileInsert := fun _ => .thrown
    sessionLatencyMs := 50
    origin := "https://app.example.com"
    nowSec := 1000 }

/-- `getUser` resolves with an error whose message has no `JWT` in it. -/
def envErrNoJwt : Env :=
  { envBase with getUser := .ok ⟨some ⟨"falha de rede"⟩, none⟩ }

/-- A session whose expiry timestamp is `0`, long past `nowSec = 1000`. -/
def envZeroExpiry : Env :=
  { envBase with getSession := .ok ⟨none, some ⟨some 0⟩⟩ }

/-- `getSession` resolves with no session and no error, localhost origin. -/
def envNoSession : Env :=
  { envBase with getSession := .ok ⟨none, none⟩ }

/-- A session carrying no expiry timestamp at all. -/
def envNoExpiry : Env :=
  { envBase with getSession := .ok ⟨none, some ⟨none⟩⟩ }

/-- `getUser` resolves with no user. -/
def envNoUser : Env :=
  { envBase with getUser := .ok ⟨none, none⟩ }

/-! Helper lemmas. -/

theorem length_filter_add_length_filter_not {α : Type} (l : List α) (p : α → Bool) :
    (l.filter p).length + (l.filter fun a => !p a).length = l.length := by
  induction l with
  | nil => simp
  | cons a l ih => cases h : p a <;> simp [List.filter_cons, h] <;> omega

/-! Claim theorems. -/

/-- C7: after every call to `applyAuthFixes`, the summary satisfies
`successful + failed = total`, where `total` counts the `applied` entries,
`successful` those with `success = true` and `failed` those with
`success = false`. -/
theorem applyAuthFixes_summary_partitioned (env : Env) :
    (applyAuthFixes env).summary.successful + (applyAuthFixes env).summary.failed
        = (applyAuthFixes env).summary.total
      ∧ (applyAuthFixes env).summary.total = (applyAuthFixes env).applied.length
      ∧ (applyAuthFixes env).summary.successful
          = ((applyAuthFixes env).applied.filter fun r => r.success).length
      ∧ (applyAuthFixes env).summary.failed
          = ((applyAuthFixes env).applied.filter fun r => !r.success).length := by
  refine ⟨?_, rfl, rfl, rfl⟩
  exact length_filter_add_length_filter_not _ _

/-- C3: `diagnoseAuthProblems` returns one entry per registered problem, in
registry order (`session_expired`, `invalid_token`, `connectivity`,
`missing_profile`, `cors`), and its summary counts the `hasProblem = true`
entries in total and per severity bucket. -/
theorem diagnoseAuthProblems_order_and_summary (env : Env) :
    ((diagnoseAuthProblems env).problems.map fun r => r.problem) = authProblems
      ∧ ((diagnoseAuthProblems env).problems.map fun r => r.problem.id)
          = ["session_expired", "invalid_token", "connectivity", "missing_profile", "cors"]
      ∧ (diagnoseAuthProblems env).summary.total
          = ((diagnoseAuthProblems env).problems.filter fun r => r.hasProblem).length
      ∧ (diagnoseAuthProblems env).summary.critical
          = ((diagnoseAuthProblems env).problems.filter
              fun r => r.hasProblem && r.problem.severity == Severity.critical).length
      ∧ (diagnoseAuthProblems env).summary.high
          = ((diagnoseAuthProblems env).problems.filter
              fun r => r.hasProblem && r.problem.severity == Severity.high).length
      ∧ (diagnoseAuthProblems env).summary.medium
          = ((diagnoseAuthProblems env).problems.filter
              fun r => r.hasProblem && r.problem.severity == Severity.medium).length
      ∧ (diagnoseAuthProblems env).summary.low
          = ((diagnoseAuthProblems env).problems.filter
              fun r => r.hasProblem && r.problem.severity == Severity.low).length := by
  refine ⟨?_, ?_, rfl, rfl, rfl, rfl, rfl⟩
  · rfl
  · simp [diagnoseAuthProblems, authProblems, sessionExpiredProblem, invalidTokenProblem,
      connectivityProblem, missingProfileProblem, corsProblem]

/-- C9: a successful session fetch whose session carries no expiry timestamp
makes `needsReauthentication` return `false`. -/
theorem needsReauthentication_no_expiry (env : Env)
    (hs : env.getSession = Outcome.ok ⟨none, some ⟨none⟩⟩) :
    needsReauthentication env = false := by
  simp [needsReauthentication, hs]

/-- Witness for C9 at a concrete behaviour. -/
theorem needsReauthentication_no_expiry_holds :
    needsReauthentication envNoExpiry = false :=
  needsReauthentication_no_expiry envNoExpiry rfl

/-- C10: when `getUser` resolves with no authenticated user, the
`missing_profile` fix reports `success = false` with the not-authenticated
message, and performs no profile-insert call. -/
theorem missingProfile_fix_unauthenticated (env : Env) (e : Option ErrorInfo)
    (hu : env.getUser = Outcome.ok ⟨e, none⟩) :
    (missingProfileProblem.fix env).fst
        = ⟨false, "Usuário não autenticado", none⟩
      ∧ ∀ row, ProviderCall.profileInsertCall row ∉ (missingProfileProblem.fix env).snd := by
  constructor
  · simp [missingProfileProblem, missingProfileFix, hu]
  · intro row
    simp [missingProfileProblem, missingProfileFix, hu]

/-- Witness for C10 at a concrete behaviour. -/
theorem missingProfile_fix_unauthenticated_holds :
    (missingProfileProblem.fix envNoUser).fst
        = ⟨false, "Usuário não autenticado", none⟩
      ∧ ∀ row, ProviderCall.profileInsertCall row ∉ (missingProfileProblem.fix envNoUser).snd :=
  missingProfile_fix_unauthenticated envNoUser none rfl

/-- Every applied fix entry comes from a diagnostic entry that reported
`hasProblem = true`. -/
theorem applied_problem_was_detected (env : Env) (a : AppliedFix)
    (ha : a ∈ (applyAuthFixes env).applied) :
    ∃ r ∈ (diagnoseAuthProblems env).problems, r.problem = a.problem ∧ r.hasProblem = true := by
  obtain ⟨r, hr, rfl⟩ := List.mem_map.1 ha
  have hr' := List.mem_filter.1 hr
  exact ⟨r, hr'.1, rfl, hr'.2⟩

/-- Two diagnostic entries with the same problem id are the same entry. -/
theorem diagnose_entry_id_injective (env : Env) :
    ∀ r1 ∈ (diagnoseAuthProblems env).problems, ∀ r2 ∈ (diagnoseAuthProblems env).problems,
      r1.problem.id = r2.problem.id → r1 = r2 := by
  intro r1 h1 r2 h2 heq
  simp only [diagnoseAuthProblems, authProblems, List.map, List.mem_cons,
    List.not_mem_nil, or_false] at h1 h2
  rcases h1 with rfl | rfl | rfl | rfl | rfl <;>
    rcases h2 with rfl | rfl | rfl | rfl | rfl <;>
    simp_all [sessionExpiredProblem, invalidTokenProblem, connectivityProblem,
      missingProfileProblem, corsProblem]

/-- C2: `applyAuthFixes` first re-diagnoses, then applies `fix` exactly to the
problems whose fresh check reported `hasProblem = true`, in diagnostic order;
a problem whose fresh check reported `hasProblem = false` has no applied
entry. -/
theorem applyAuthFixes_fixes_exactly_detected (env : Env) :
    (applyAuthFixes env).applied
        = (((diagnoseAuthProblems env).problems.filter fun r => r.hasProblem).map
            fun r =>
              { problem := r.problem
                success := (r.problem.fix env).fst.success
                message := (r.problem.fix env).fst.message
                details := (r.problem.fix env).fst.details })
      ∧ ∀ r ∈ (diagnoseAuthProblems env).problems, r.hasProblem = false →
          ∀ a ∈ (applyAuthFixes env).applied, a.problem.id ≠ r.problem.id := by
  constructor
  · rfl
  · intro r hr hfalse a ha hid
    obtain ⟨r', hr', hpr', htrue⟩ := applied_problem_was_detected env a ha
    have : r' = r := diagnose_entry_id_injective env r' hr' r hr (by rw [hpr', hid])
    rw [this, hfalse] at htrue
    exact Bool.false_ne_true htrue

/-- C5 counterexample: a session whose expiry timestamp is `0` — less than
300 seconds after `nowSec = 1000` — makes `needsReauthentication` return
`false`, because `if (expiresAt)` treats the timestamp `0` as absent. -/
theorem needsReauthentication_zero_expiry :
    envZeroExpiry.getSession = Outcome.ok ⟨none, some ⟨some 0⟩⟩
      ∧ envZeroExpiry.nowSec = 1000
      ∧ (0 : Int) - envZeroExpiry.nowSec < 300
      ∧ needsReauthentication envZeroExpiry = false :=
  ⟨rfl, rfl, by decide, rfl⟩

/-- C5 (amended): `needsReauthentication` returns `true` when the session
fetch resolves with an error, `true` when no session exists, `true` when the
session's expiry timestamp is nonzero and less than 300 seconds after the
current time, and `false` when the expiry timestamp is more than 300 seconds
after the current time (a zero expiry timestamp is treated as absent and
yields `false`). -/
theorem needsReauthentication_cases (env : Env) :
    (∀ e rest, env.getSession = Outcome.ok ⟨some e, rest⟩ →
        needsReauthentication env = true)
      ∧ (env.getSession = Outcome.ok ⟨none, none⟩ → needsReauthentication env = true)
      ∧ (∀ t, env.getSession = Outcome.ok ⟨none, some ⟨some t⟩⟩ → t ≠ 0 →
          t - env.nowSec < 300 → needsReauthentication env = true)
      ∧ (∀ t, env.getSession = Outcome.ok ⟨none, some ⟨some t⟩⟩ →
          300 < t - env.nowSec → needsReauthentication env = false) := by
  refine ⟨?_, ?_, ?_, ?_⟩
  · intro e rest hs
    simp [needsReauthentication, hs]
  · intro hs
    simp [needsReauthentication, hs]
  · intro t hs ht0 hlt
    simp [needsReauthentication, hs, ht0, hlt]
  · intro t hs hgt
    by_cases ht0 : t = 0
    · simp [needsReauthentication, hs, ht0]
    · have : ¬t - env.nowSec < 300 := by omega
      simp [needsReauthentication, hs, ht0, this]

/-- C8: when `getSession` resolves to no session and no error, the diagnostic
entry for `session_expired` has `hasProblem = true` with the no-active-session
details, and on a localhost-like origin the `cors` entry has
`hasProblem = false`. -/
theorem diagnose_no_session (env : Env)
    (hs : env.getSession = Outcome.ok ⟨none, none⟩)
    (hloc : isLocalhostOrigin env.origin = true) :
    (((diagnoseAuthProblems env).problems.filter
          fun r => r.problem.id == "session_expired").map
        fun r => (r.hasProblem, r.details))
      = [(true, some "Nenhuma sessão ativa encontrada")]
    ∧ (((diagnoseAuthProblems env).problems.filter fun r => r.problem.id == "cors").map
        fun r => r.hasProblem) = [false] := by
  constructor <;>
    simp [diagnoseAuthProblems, authProblems, sessionExpiredProblem, invalidTokenProblem,
      connectivityProblem, missingProfileProblem, corsProblem, sessionExpiredCheck,
      corsCheck, hs, hloc]

/-- Witness for C8 with origin `http://localhost:5173`. -/
theorem diagnose_no_session_holds :
    (((diagnoseAuthProblems envNoSession).problems.filter
          fun r => r.problem.id == "session_expired").map
        fun r => (r.hasProblem, r.details))
      = [(true, some "Nenhuma sessão ativa encontrada")]
    ∧ (((diagnoseAuthProblems envNoSession).problems.filter
          fun r => r.problem.id == "cors").map
        fun r => r.hasProblem) = [false] :=
  diagnose_no_session envNoSession rfl rfl

/-- Folding `removeItem` over a key list filters out exactly the entries whose
key occurs in the list. -/
theorem foldl_removeItem_eq (ks : List String) (st : Storage) :
    ks.foldl removeItem st = st.filter fun kv => !(ks.elem kv.fst) := by
  induction ks generalizing st with
  | nil => simp [List.elem_nil]
  | cons k ks ih =>
    rw [List.foldl_cons, ih, removeItem, List.filter_filter]
    apply List.filter_congr
    intro kv _
    by_cases hk : kv.fst = k <;> by_cases hc : kv.fst ∈ ks <;>
      simp [List.elem_cons, hk, hc, bne]

/-- `strIncludes "" sub = false` for a nonempty pattern, hence the empty key
never matches. -/
theorem authKeyMatches_empty : authKeyMatches "" = false := rfl

/-- For an entry of the storage, its key occurs in `keysToRemove` exactly when
it matches the provider/auth pattern. -/
theorem elem_keysToRemove (st : Storage) (kv : String × String) (h : kv ∈ st) :
    (keysToRemove st).elem kv.fst = authKeyMatches kv.fst := by
  cases hm : authKeyMatches kv.fst with
  | true =>
    apply List.elem_iff.2
    apply List.mem_map.2
    refine ⟨kv, ?_, rfl⟩
    apply List.mem_filter.2
    refine ⟨h, ?_⟩
    have hne : kv.fst ≠ "" := by
      intro h0
      rw [h0, authKeyMatches_empty] at hm
      exact Bool.false_ne_true hm
    simp [bne, hm, hne]
  | false =>
    cases hc : (keysToRemove st).elem kv.fst with
    | false => rfl
    | true =>
      exfalso
      obtain ⟨kv', hkv', heq⟩ := List.mem_map.1 (List.elem_iff.1 hc)
      have h2 := (Bool.and_eq_true _ _ ▸ (List.mem_filter.1 hkv').2).2
      rw [heq] at h2
      simp [h2] at hm

/-- The wipe phase of `clearAuthData` filters out exactly the matching keys. -/
theorem wipe_eq (st : Storage) :
    (keysToRemove st).foldl removeItem st = st.filter fun kv => !authKeyMatches kv.fst := by
  rw [foldl_removeItem_eq]
  apply List.filter_congr
  intro kv hkv
  rw [elem_keysToRemove st kv hkv]

/-- C6: `clearAuthData` removes from both storages exactly the keys containing
`supabase` or `auth`, leaves every other entry unchanged, and performs the
sign-out call in every run — in particular in non-throwing runs and in runs
where zero keys matched. -/
theorem clearAuthData_spec (env : Env) (locSt sesSt : Storage) :
    (clearAuthData env locSt sesSt).localAfter
        = locSt.filter (fun kv => !authKeyMatches kv.fst)
      ∧ (clearAuthData env locSt sesSt).sessionAfter
        = sesSt.filter (fun kv => !authKeyMatches kv.fst)
      ∧ ProviderCall.signOutCall ∈ (clearAuthData env locSt sesSt).calls := by
  cases ho : env.signOut <;>
    simp [clearAuthData, ho, wipe_eq]

/-- When a provider call performed by a registered check throws, the check's
catch branch yields `hasProblem = true` with a details string. -/
theorem check_raises_hasProblem (env : Env) (p : AuthProblem) (hp : p ∈ authProblems)
    (h : checkRaises p.id env = true) :
    (p.check env).fst.hasProblem = true ∧ (p.check env).fst.details.isSome = true := by
  simp only [authProblems, List.mem_cons, List.not_mem_nil, or_false] at hp
  rcases hp with rfl | rfl | rfl | rfl | rfl
  · simp only [sessionExpiredProblem, checkRaises] at h ⊢
    simp at h
    simp [sessionExpiredCheck, h]
  · simp only [invalidTokenProblem, checkRaises] at h ⊢
    simp at h
    simp [invalidTokenCheck, h]
  · simp only [connectivityProblem, checkRaises] at h ⊢
    simp at h
    simp [connectivityCheck, h]
  · simp only [missingProfileProblem, checkRaises] at h ⊢
    simp at h
    cases hgu : env.getUser with
    | thrown => simp [missingProfileCheck, hgu]
    | ok r =>
      rw [hgu] at h
      obtain ⟨re, ru⟩ := r
      cases ru with
      | none => simp at h
      | some u =>
        simp at h
        simp [missingProfileCheck, hgu, h]
  · simp only [corsProblem, checkRaises] at h ⊢
    simp at h
    simp [corsCheck, h.1, h.2]

/-- When a provider call performed by a registered fix throws, the fix's catch
branch yields `success = false` with a nonempty message. -/
theorem fix_raises_failure (env : Env) (p : AuthProblem) (hp : p ∈ authProblems)
    (h : fixRaises p.id env = true) :
    (p.fix env).fst.success = false ∧ (p.fix env).fst.message ≠ "" := by
  simp only [authProblems, List.mem_cons, List.not_mem_nil, or_false] at hp
  rcases hp with rfl | rfl | rfl | rfl | rfl
  · simp only [sessionExpiredProblem, fixRaises] at h ⊢
    simp at h
    simp [sessionExpiredFix, h]
  · simp only [invalidTokenProblem, fixRaises] at h ⊢
    simp at h
    simp [invalidTokenFix, h]
  · simp only [connectivityProblem, fixRaises] at h ⊢
    simp at h
    simp [connectivityFix, h]
  · simp only [missingProfileProblem, fixRaises] at h ⊢
    simp at h
    cases hgu : env.getUser with
    | thrown => simp [missingProfileFix, hgu]
    | ok r =>
      rw [hgu] at h
      obtain ⟨re, ru⟩ := r
      cases ru with
      | none => simp at h
      | some u =>
        simp at h
        simp [missingProfileFix, hgu, h]
  · simp only [corsProblem, fixRaises] at h
    simp at h

/-- C1: for every problem in the registry and every behaviour of the provider
calls, exceptions never propagate: when a provider call performed inside
`check` throws, the check resolves to `hasProblem = true` with a generic
details string, and when one performed inside `fix` throws, the fix resolves
to `success = false` with a message. -/
theorem problems_never_propagate (env : Env) (p : AuthProblem) (hp : p ∈ authProblems) :
    (checkRaises p.id env = true →
        (p.check env).fst.hasProblem = true ∧ (p.check env).fst.details.isSome = true)
      ∧ (fixRaises p.id env = true →
        (p.fix env).fst.success = false ∧ (p.fix env).fst.message ≠ "") :=
  ⟨fun h => check_raises_hasProblem env p hp h, fun h => fix_raises_failure env p hp h⟩

/-- Witness for C1: the session-expired problem under a provider whose calls
all reject. -/
theorem problems_never_propagate_holds :
    ((sessionExpiredProblem.check envThrownAll).fst.hasProblem = true
        ∧ (sessionExpiredProblem.check envThrownAll).fst.details.isSome = true)
      ∧ ((sessionExpiredProblem.fix envThrownAll).fst.success = false
        ∧ (sessionExpiredProblem.fix envThrownAll).fst.message ≠ "") :=
  ⟨(problems_never_propagate envThrownAll sessionExpiredProblem (List.Mem.head _)).1
      (by decide),
    (problems_never_propagate envThrownAll sessionExpiredProblem (List.Mem.head _)).2
      (by decide)⟩

/-- C4 counterexample: the `invalid_token` check sees `getUser` resolve with
an error result (a non-throwing failure to reach the provider) whose message
has no `JWT` in it, and reports `hasProblem = false`, not `true`. -/
theorem invalidToken_error_not_flagged :
    invalidTokenProblem ∈ authProblems
      ∧ envErrNoJwt.getUser = Outcome.ok ⟨some ⟨"falha de rede"⟩, none⟩
      ∧ (invalidTokenProblem.check envErrNoJwt).fst.hasProblem = false :=
  ⟨List.Mem.tail _ (List.Mem.head _), rfl, rfl⟩

/-- C4 (amended): for every registered problem, a provider call that throws
inside the check yields `hasProblem = true`; an error result yields
`hasProblem = true` for the `session_expired` and `connectivity` checks,
while `invalid_token` flags it only when the message mentions `JWT`, and
`cors` (evaluated off-localhost) only when the message mentions `CORS`. -/
theorem checks_fail_closed (env : Env) :
    (∀ p ∈ authProblems, checkRaises p.id env = true →
        (p.check env).fst.hasProblem = true)
      ∧ (∀ e rest, env.getSession = Outcome.ok ⟨some e, rest⟩ →
          (sessionExpiredProblem.check env).fst.hasProblem = true
            ∧ (connectivityProblem.check env).fst.hasProblem = true)
      ∧ (∀ e rest, env.getUser = Outcome.ok ⟨some e, rest⟩ →
          (invalidTokenProblem.check env).fst.hasProblem = strIncludes e.message "JWT")
      ∧ (∀ e rest, isLocalhostOrigin env.origin = false →
          env.getSession = Outcome.ok ⟨some e, rest⟩ →
          (corsProblem.check env).fst.hasProblem = strIncludes e.message "CORS") := by
  refine ⟨fun p hp h => (check_raises_hasProblem env p hp h).1, ?_, ?_, ?_⟩
  · intro e rest hs
    constructor <;>
      simp [sessionExpiredProblem, connectivityProblem, sessionExpiredCheck,
        connectivityCheck, hs]
  · intro e rest hu
    cases hj : strIncludes e.message "JWT" <;>
      simp [invalidTokenProblem, invalidTokenCheck, hu, hj]
  · intro e rest hl hs
    cases hj : strIncludes e.message "CORS" <;>
      simp [corsProblem, corsCheck, hl, hs, hj]

end AuthFixes
